import Mathlib

/-!
Verification of the MQTT logger client (`mqtt-log-client.py`).

The program is a callback-driven glue layer: an MQTT client library delivers
connection and message events to two callbacks, which format text and emit it
to two sinks (console and an append-mode log file).  We embed the message data
model, the payload decoding logic, the two formatting paths (console block and
log line), the file buffer discipline (write/flush/close), and the control
flow of `main`'s exception handlers, and prove the spec's testable properties
against this embedding.

Bytes are modelled as `List Nat` (each element `< 256` where it matters);
Python strings as Lean `String`.
-/

namespace MqttLogger

/-- An MQTT message as delivered to the callbacks: topic string, raw payload
bytes, QoS level and retained flag (`msg.topic`, `msg.payload`, `msg.qos`,
`msg.retain` in the source). -/
structure MQTTMessage where
  topic : String
  payload : List Nat
  qos : Nat
  retain : Bool
deriving Repr, DecidableEq

/-- A wall-clock timestamp as read by `datetime.now()`. -/
structure Timestamp where
  year : Nat
  month : Nat
  day : Nat
  hour : Nat
  minute : Nat
  second : Nat
deriving Repr, DecidableEq

/-- Is `b` a UTF-8 continuation byte (`0x80..0xBF`)? -/
def isCont (b : Nat) : Bool := 0x80 ≤ b && b < 0xC0

/-- One step of strict UTF-8 decoding, modelling how Python's
`bytes.decode('utf-8')` consumes one character: returns the decoded code
point and the remaining bytes, or `none` on a decoding error (stray
continuation byte, truncated sequence, overlong encoding, surrogate code
point, or value above `0x10FFFF`). -/
def decodeOne : List Nat → Option (Nat × List Nat)
  | [] => none
  | b0 :: rest =>
    if b0 < 0x80 then some (b0, rest)
    else if b0 < 0xC2 then none
    else if b0 < 0xE0 then
      match rest with
      | b1 :: rest1 =>
        if isCont b1 then some ((b0 - 0xC0) * 0x40 + (b1 - 0x80), rest1) else none
      | [] => none
    else if b0 < 0xF0 then
      match rest with
      | b1 :: b2 :: rest2 =>
        if isCont b1 && isCont b2 then
          let cp := (b0 - 0xE0) * 0x1000 + (b1 - 0x80) * 0x40 + (b2 - 0x80)
          if cp < 0x800 then none
          else if 0xD800 ≤ cp && cp < 0xE000 then none
          else some (cp, rest2)
        else none
      | _ => none
    else if b0 < 0xF5 then
      match rest with
      | b1 :: b2 :: b3 :: rest3 =>
        if isCont b1 && isCont b2 && isCont b3 then
          let cp := (b0 - 0xF0) * 0x40000 + (b1 - 0x80) * 0x1000
                      + (b2 - 0x80) * 0x40 + (b3 - 0x80)
          if cp < 0x10000 then none
          else if 0x110000 ≤ cp then none
          else some (cp, rest3)
        else none
      | _ => none
    else none

/-- Iterate `decodeOne`; `fuel` bounds the number of characters decoded and
is irrelevant as long as it is at least the number of bytes, since each step
consumes at least one byte. -/
def utf8DecodeFuel : Nat → List Nat → Option (List Nat)
  | _, [] => some []
  | 0, _ :: _ => none
  | fuel + 1, b0 :: tl =>
    match decodeOne (b0 :: tl) with
    | none => none
    | some (cp, rest) => (utf8DecodeFuel fuel rest).map (fun cps => cp :: cps)

/-- Strict UTF-8 decoding of a byte sequence into its list of code points:
`some` exactly when Python's `bytes.decode('utf-8')` succeeds, `none`
exactly when Python raises `UnicodeDecodeError`. -/
def utf8Decode (bs : List Nat) : Option (List Nat) :=
  utf8DecodeFuel bs.length bs

/-- Build a Lean string from a list of Unicode code points. -/
def strOfCps (cps : List Nat) : String := String.mk (cps.map Char.ofNat)

/-- The character `'-'` repeated sixty times: the separator the source prints
with `print("-" * 60)`. -/
def separator : String := String.mk (List.replicate 60 '-')

/-- Python's rendering of a `bool` in an f-string: `True` / `False`. -/
def pyBool (b : Bool) : String := if b then "True" else "False"

/-- Lower-case hexadecimal digit for `n < 16`. -/
def hexDigit (n : Nat) : Char :=
  if n < 10 then Char.ofNat (48 + n) else Char.ofNat (87 + n)

/-- The characters Python's `repr` of a `bytes` object uses for one byte
inside the quotes, given the quote byte `q`: backslash and the quote char are
escaped, tab/newline/carriage-return become `\t`/`\n`/`\r`, other printable
ASCII is literal, everything else is `\xNN`. -/
def byteEscapeChars (q b : Nat) : List Char :=
  if b = 0x5C then ['\\', '\\']
  else if b = q then ['\\', Char.ofNat q]
  else if b = 0x09 then ['\\', 't']
  else if b = 0x0A then ['\\', 'n']
  else if b = 0x0D then ['\\', 'r']
  else if 0x20 ≤ b && b < 0x7F then [Char.ofNat b]
  else ['\\', 'x', hexDigit (b / 16), hexDigit (b % 16)]

/-- Python's `str()` of a `bytes` object, i.e. its `repr`: `b'...'`, using a
double quote instead when the bytes contain `'` but not `"`.  This is what
`f"...{msg.payload}..."` interpolates for a bytes payload. -/
def pyBytesStr (bs : List Nat) : String :=
  let q : Nat := if bs.contains 0x27 && !(bs.contains 0x22) then 0x22 else 0x27
  String.mk (['b', Char.ofNat q] ++ (bs.map (byteEscapeChars q)).flatten ++ [Char.ofNat q])

/-- Zero-padded two-digit decimal rendering, as `strftime` does for
`%m %d %H %M %S` (exact for `n < 100`). -/
def pad2 (n : Nat) : String :=
  String.mk [Char.ofNat (48 + n / 10 % 10), Char.ofNat (48 + n % 10)]

/-- Four-digit decimal rendering, as `strftime` renders `%Y` for years
`1000..9999`. -/
def pad4 (n : Nat) : String :=
  String.mk [Char.ofNat (48 + n / 1000 % 10), Char.ofNat (48 + n / 100 % 10),
             Char.ofNat (48 + n / 10 % 10), Char.ofNat (48 + n % 10)]

/-- `datetime.now().strftime("%Y-%m-%d %H:%M:%S")`. -/
def formatTimestamp (t : Timestamp) : String :=
  pad4 t.year ++ "-" ++ pad2 t.month ++ "-" ++ pad2 t.day ++ " "
    ++ pad2 t.hour ++ ":" ++ pad2 t.minute ++ ":" ++ pad2 t.second

/-- The payload text the console path computes (source lines 41–47): the
UTF-8 decoded string when decoding succeeds, otherwise the placeholder
`[Binary data: N bytes]`. -/
def decodePayload (payload : List Nat) : String :=
  match utf8Decode payload with
  | some cps => strOfCps cps
  | none => "[Binary data: " ++ toString payload.length ++ " bytes]"

/-- The console block `on_message` prints for one message (source lines
36–54): timestamp line, topic line, QoS/retained line, payload line,
separator — one list element per `print` call. -/
def on_message (ts : Timestamp) (msg : MQTTMessage) : List String :=
  [ "[" ++ formatTimestamp ts ++ "]",
    "Topic: " ++ msg.topic,
    "QoS: " ++ toString msg.qos ++ ", Retained: " ++ pyBool msg.retain,
    "Payload: " ++ decodePayload msg.payload,
    separator ]

/-- The single string `log_to_file` writes for one message (source line 75).
Note it interpolates `msg.payload` — the raw bytes object — so the payload
field is Python's `str()` of the bytes, not the decoded text. -/
def log_to_file (ts : Timestamp) (msg : MQTTMessage) : String :=
  "[" ++ formatTimestamp ts ++ "] Topic: " ++ msg.topic
    ++ ", QoS: " ++ toString msg.qos
    ++ ", Retained: " ++ pyBool msg.retain
    ++ ", Payload: " ++ pyBytesStr msg.payload ++ "\n"

/-! ## File model -/

/-- A buffered text file: `content` is what has reached the file on disk,
`buffer` holds writes not yet flushed, `closed` records whether
`close()` has been called. -/
structure FileState where
  content : List String
  buffer : List String
  closed : Bool
deriving Repr, DecidableEq

/-- Python file open modes relevant here. -/
inductive Mode
  | append
  | write
deriving Repr, DecidableEq

/-- `open(path, mode)` on a file whose on-disk content is `disk`:
append mode keeps the existing content, write mode truncates. -/
def openFile (m : Mode) (disk : List String) : FileState :=
  match m with
  | Mode.append => { content := disk, buffer := [], closed := false }
  | Mode.write => { content := [], buffer := [], closed := false }

/-- The mode the program opens its log file with (source line 70:
`open(args.log, 'a', encoding='utf-8')`). -/
def mainOpenMode : Mode := Mode.append

/-- `file.write(s)`: the string joins the buffer. -/
def fileWrite (s : String) (f : FileState) : FileState :=
  { f with buffer := f.buffer ++ [s] }

/-- `file.flush()`: buffered writes reach the disk content. -/
def fileFlush (f : FileState) : FileState :=
  { content := f.content ++ f.buffer, buffer := [], closed := f.closed }

/-- `file.close()`: flushes and marks the file closed. -/
def fileClose (f : FileState) : FileState :=
  { content := f.content ++ f.buffer, buffer := [], closed := true }

/-- The effect of `log_to_file` on the log file (source lines 72–77):
one `write` of the formatted entry followed by one `flush`. -/
def log_to_file_effect (ts : Timestamp) (msg : MQTTMessage) (f : FileState) : FileState :=
  fileFlush (fileWrite (log_to_file ts msg) f)

/-- `on_message_with_log` (source lines 79–82): runs the console callback,
then the file logger; returns the console lines printed and the new file
state. -/
def on_message_with_log (tsC tsL : Timestamp) (msg : MQTTMessage) (f : FileState) :
    List String × FileState :=
  (on_message tsC msg, log_to_file_effect tsL msg f)

/-- A run of the message loop over the log file: open in `main`'s mode, then
handle each delivered message with `on_message_with_log`'s file effect. -/
def runLog (disk : List String) (evs : List (Timestamp × MQTTMessage)) : FileState :=
  evs.foldl (fun f e => log_to_file_effect e.1 e.2 f) (openFile mainOpenMode disk)

/-! ## Control-flow model of `main` and the connect callback -/

/-- Observable actions of the program, in order: console prints, MQTT client
calls, and log-file operations. -/
inductive Action
  | print (s : String)
  | connect (host : String) (port : Nat)
  | subscribe (topic : String)
  | disconnect
  | writeLog (s : String)
  | closeLog
deriving Repr, DecidableEq

/-- `on_connect` (source lines 26–34): on return code 0, print status,
subscribe to `#`, print two more lines; otherwise print only the failure
message containing the return code. -/
def on_connect (rc : Nat) : List Action :=
  if rc = 0 then
    [ Action.print "✓ Connected to MQTT broker",
      Action.subscribe "#",
      Action.print "✓ Subscribed to all topics (#)",
      Action.print separator ]
  else
    [ Action.print ("✗ Failed to connect, return code: " ++ toString rc) ]

/-- `install_paho_mqtt` (source lines 12–24): returns the actions printed and
`some code` when the function terminates the process via `sys.exit`, `none`
when it returns normally.  `alreadyInstalled` models the import succeeding,
`pipSucceeds` the `pip install` subprocess exiting cleanly. -/
def install_paho_mqtt (alreadyInstalled pipSucceeds : Bool) : List Action × Option Nat :=
  if alreadyInstalled then
    ([Action.print "✓ paho-mqtt is already installed"], none)
  else if pipSucceeds then
    ([Action.print "Installing paho-mqtt...",
      Action.print "✓ Successfully installed paho-mqtt"], none)
  else
    ([Action.print "Installing paho-mqtt...",
      Action.print "✗ Failed to install paho-mqtt"], some 1)

/-- How `main`'s `try` block ends: `loop_forever` is interrupted by Ctrl-C
(`KeyboardInterrupt`), or some statement raises an `Exception` carrying
message `m`. -/
inductive LoopOutcome
  | keyboardInterrupt
  | exn (m : String)
deriving Repr, DecidableEq

/-- The exception handlers of `main` (source lines 101–109): the actions each
handler performs and the resulting process exit code (`main` returning
normally exits with 0; `sys.exit(1)` exits with 1). -/
def mainHandler : LoopOutcome → List Action × Nat
  | LoopOutcome.keyboardInterrupt =>
      ([ Action.print "\nDisconnecting...",
         Action.disconnect,
         Action.closeLog,
         Action.print "Stopped" ], 0)
  | LoopOutcome.exn m =>
      ([ Action.print ("Error: " ++ m),
         Action.closeLog ], 1)

/-- Is this action a log-file write? -/
def isLogWrite : Action → Bool
  | Action.writeLog _ => true
  | _ => false

/-- No `writeLog` action occurs after a `closeLog` action in the trace. -/
def noWriteAfterClose : List Action → Bool
  | [] => true
  | Action.closeLog :: rest =>
      rest.all (fun a => !isLogWrite a) && noWriteAfterClose rest
  | _ :: rest => noWriteAfterClose rest

/-- Spec-side description of the log line's timestamp field (`[YYYY-MM-DD
HH:MM:SS]` without the brackets): a four-digit year and two-digit month,
day, hour, minute and second, with the spec's separators. -/
def timestampFormatOk (s : String) : Prop :=
  ∃ y mo d h mi sec : String,
    s = y ++ "-" ++ mo ++ "-" ++ d ++ " " ++ h ++ ":" ++ mi ++ ":" ++ sec ∧
    y.length = 4 ∧ mo.length = 2 ∧ d.length = 2 ∧
    h.length = 2 ∧ mi.length = 2 ∧ sec.length = 2 ∧
    y.data.all Char.isDigit = true ∧ mo.data.all Char.isDigit = true ∧
    d.data.all Char.isDigit = true ∧ h.data.all Char.isDigit = true ∧
    mi.data.all Char.isDigit = true ∧ sec.data.all Char.isDigit = true

/-! ## Helper lemmas -/

set_option maxHeartbeats 1000000 in
theorem decodeOne_length : ∀ (bs : List Nat) (cp : Nat) (rest : List Nat),
    decodeOne bs = some (cp, rest) → rest.length < bs.length := by
  intro bs cp rest h
  rcases bs with _ | ⟨b0, _ | ⟨b1, _ | ⟨b2, _ | ⟨b3, tl⟩⟩⟩⟩ <;>
    simp only [decodeOne] at h <;>
    (try split_ifs at h) <;> simp_all <;> omega

theorem utf8DecodeFuel_length : ∀ (n : Nat) (bs cps : List Nat),
    utf8DecodeFuel n bs = some cps → cps.length ≤ bs.length := by
  intro n
  induction n with
  | zero =>
    intro bs cps h
    rcases bs with _ | ⟨b0, tl⟩
    · simp only [utf8DecodeFuel, Option.some.injEq] at h
      subst h; simp
    · simp [utf8DecodeFuel] at h
  | succ n ih =>
    intro bs cps h
    rcases bs with _ | ⟨b0, tl⟩
    · simp only [utf8DecodeFuel, Option.some.injEq] at h
      subst h; simp
    · simp only [utf8DecodeFuel] at h
      rcases hd : decodeOne (b0 :: tl) with _ | ⟨cp, rest⟩ <;> rw [hd] at h
      · simp at h
      · simp only [Option.map_eq_some'] at h
        obtain ⟨a, ha, rfl⟩ := h
        have hlt := decodeOne_length _ _ _ hd
        have hb : (b0 :: tl).length = tl.length + 1 := rfl
        have hle := ih rest a ha
        have hc : (cp :: a).length = a.length + 1 := rfl
        omega

theorem utf8Decode_length (bs cps : List Nat) (h : utf8Decode bs = some cps) :
    cps.length ≤ bs.length :=
  utf8DecodeFuel_length _ _ _ h

theorem strOfCps_length (cps : List Nat) : (strOfCps cps).length = cps.length := by
  simp [strOfCps, String.length]

theorem byteEscapeChars_len (q b : Nat) : 1 ≤ (byteEscapeChars q b).length := by
  unfold byteEscapeChars
  split_ifs <;> simp

theorem flatten_escape_len (q : Nat) : ∀ (bs : List Nat),
    bs.length ≤ ((bs.map (byteEscapeChars q)).flatten).length := by
  intro bs
  induction bs with
  | nil => simp
  | cons b tl ih =>
    simp only [List.map_cons, List.flatten_cons, List.length_append, List.length_cons]
    have := byteEscapeChars_len q b
    omega

theorem pyBytesStr_length (bs : List Nat) : bs.length + 3 ≤ (pyBytesStr bs).length := by
  have h := flatten_escape_len
    (if bs.contains 0x27 && !(bs.contains 0x22) then 0x22 else 0x27) bs
  simp only [pyBytesStr, String.length, List.length_append, List.length_cons,
    List.length_nil]
  omega

theorem logged_ne_decoded (bs cps : List Nat) (h : utf8Decode bs = some cps) :
    pyBytesStr bs ≠ strOfCps cps := by
  intro heq
  have h1 := pyBytesStr_length bs
  have h2 := strOfCps_length cps
  have h3 := utf8Decode_length bs cps h
  rw [heq, h2] at h1
  omega

theorem pyBytesStr_head (bs : List Nat) : (pyBytesStr bs).data.head? = some 'b' := by
  simp [pyBytesStr]

theorem placeholder_head (n : Nat) :
    ("[Binary data: " ++ toString n ++ " bytes]").data.head? = some '[' := by
  rw [show ("[Binary data: " : String) = "[" ++ "Binary data: " from by decide]
  simp only [String.data_append]
  simp

theorem logged_ne_placeholder (bs : List Nat) :
    pyBytesStr bs ≠ "[Binary data: " ++ toString bs.length ++ " bytes]" := by
  intro heq
  have h1 := pyBytesStr_head bs
  rw [heq, placeholder_head] at h1
  exact absurd h1 (by decide)

theorem isDigit_ofNat (k : Nat) (h : k < 10) : (Char.ofNat (48 + k)).isDigit = true := by
  interval_cases k <;> decide

theorem pad2_digits (n : Nat) : (pad2 n).data.all Char.isDigit = true := by
  simp only [pad2, List.all_cons, List.all_nil, Bool.and_true]
  rw [isDigit_ofNat _ (Nat.mod_lt _ (by norm_num)),
    isDigit_ofNat _ (Nat.mod_lt _ (by norm_num))]
  rfl

theorem pad4_digits (n : Nat) : (pad4 n).data.all Char.isDigit = true := by
  simp only [pad4, List.all_cons, List.all_nil, Bool.and_true]
  rw [isDigit_ofNat _ (Nat.mod_lt _ (by norm_num)),
    isDigit_ofNat _ (Nat.mod_lt _ (by norm_num)),
    isDigit_ofNat _ (Nat.mod_lt _ (by norm_num)),
    isDigit_ofNat _ (Nat.mod_lt _ (by norm_num))]
  rfl

theorem foldl_log (evs : List (Timestamp × MQTTMessage)) :
    ∀ f : FileState, f.buffer = [] →
      (evs.foldl (fun f e => log_to_file_effect e.1 e.2 f) f).content
          = f.content ++ evs.map (fun e => log_to_file e.1 e.2) ∧
      (evs.foldl (fun f e => log_to_file_effect e.1 e.2 f) f).buffer = [] := by
  induction evs with
  | nil =>
    intro f hf
    exact ⟨by simp, hf⟩
  | cons e tl ih =>
    intro f hf
    have hstep : (log_to_file_effect e.1 e.2 f).buffer = [] := rfl
    have hc : (log_to_file_effect e.1 e.2 f).content
        = f.content ++ [log_to_file e.1 e.2] := by
      simp [log_to_file_effect, fileFlush, fileWrite, hf]
    obtain ⟨ih1, ih2⟩ := ih (log_to_file_effect e.1 e.2 f) hstep
    refine ⟨?_, by rw [List.foldl_cons]; exact ih2⟩
    rw [List.foldl_cons, ih1, hc]
    simp

/-! ## Claim theorems -/

/-- C1, counterexample: the payload bytes `[104, 105]` decode as the UTF-8
string `hi`, and the console does print `Payload: hi`, but the log line
written for this message carries `b` followed by the quoted raw bytes in its
payload field, not the decoded string — so the claim that the logged payload
text equals the decoded string is false. -/
theorem c1_log_payload_not_decoded_cex :
    utf8Decode [104, 105] = some [104, 105] ∧
    strOfCps [104, 105] = "hi" ∧
    (on_message ⟨2026, 1, 2, 3, 4, 5⟩ ⟨"t", [104, 105], 0, false⟩)[3]? =
      some "Payload: hi" ∧
    log_to_file ⟨2026, 1, 2, 3, 4, 5⟩ ⟨"t", [104, 105], 0, false⟩ =
      "[2026-01-02 03:04:05] Topic: t, QoS: 0, Retained: False, Payload: b"
        ++ String.mk [Char.ofNat 39, 'h', 'i', Char.ofNat 39] ++ "\n" ∧
    log_to_file ⟨2026, 1, 2, 3, 4, 5⟩ ⟨"t", [104, 105], 0, false⟩ ≠
      "[2026-01-02 03:04:05] Topic: t, QoS: 0, Retained: False, Payload: hi\n" := by
  refine ⟨by decide, by decide, by decide, by decide, by decide⟩

/-- C1, amended: for a payload that decodes as valid UTF-8, the console
payload line shows the decoded string, while the log file's payload field is
Python's `str()` of the raw payload bytes — which never equals the decoded
string. -/
theorem c1_console_decodes_log_raw (ts : Timestamp) (msg : MQTTMessage)
    (cps : List Nat) (h : utf8Decode msg.payload = some cps) :
    (on_message ts msg)[3]? = some ("Payload: " ++ strOfCps cps) ∧
    log_to_file ts msg =
      "[" ++ formatTimestamp ts ++ "] Topic: " ++ msg.topic
        ++ ", QoS: " ++ toString msg.qos
        ++ ", Retained: " ++ pyBool msg.retain
        ++ ", Payload: " ++ pyBytesStr msg.payload ++ "\n" ∧
    pyBytesStr msg.payload ≠ strOfCps cps := by
  refine ⟨?_, rfl, logged_ne_decoded _ _ h⟩
  simp [on_message, decodePayload, h]

/-- C1, witness for the amended theorem at the payload `[104, 105]`. -/
theorem c1_console_decodes_log_raw_witness :
    utf8Decode [104, 105] = some [104, 105] ∧
    ((on_message ⟨2026, 1, 2, 3, 4, 5⟩ ⟨"t", [104, 105], 0, false⟩)[3]? =
        some ("Payload: " ++ strOfCps [104, 105]) ∧
      log_to_file ⟨2026, 1, 2, 3, 4, 5⟩ ⟨"t", [104, 105], 0, false⟩ =
        "[" ++ formatTimestamp ⟨2026, 1, 2, 3, 4, 5⟩ ++ "] Topic: " ++ "t"
          ++ ", QoS: " ++ toString 0
          ++ ", Retained: " ++ pyBool false
          ++ ", Payload: " ++ pyBytesStr [104, 105] ++ "\n" ∧
      pyBytesStr [104, 105] ≠ strOfCps [104, 105]) :=
  ⟨by decide, c1_console_decodes_log_raw ⟨2026, 1, 2, 3, 4, 5⟩
    ⟨"t", [104, 105], 0, false⟩ [104, 105] (by decide)⟩

/-- C2, counterexample: the single byte `0xFF` is not valid UTF-8; the
console does print the placeholder `[Binary data: 1 bytes]`, but the log
line's payload field is Python's `str()` of the raw byte (an escaped hex
form), not the placeholder — so the claim that the logged payload is the
placeholder is false. -/
theorem c2_log_payload_not_placeholder_cex :
    utf8Decode [255] = none ∧
    (on_message ⟨2026, 1, 2, 3, 4, 5⟩ ⟨"t", [255], 0, false⟩)[3]? =
      some "Payload: [Binary data: 1 bytes]" ∧
    pyBytesStr [255] =
      "b" ++ String.mk [Char.ofNat 39, '\\', 'x', 'f', 'f', Char.ofNat 39] ∧
    log_to_file ⟨2026, 1, 2, 3, 4, 5⟩ ⟨"t", [255], 0, false⟩ ≠
      "[2026-01-02 03:04:05] Topic: t, QoS: 0, Retained: False, Payload: [Binary data: 1 bytes]\n" := by
  refine ⟨by decide, by decide, by decide, by decide⟩

/-- C2, amended: for a payload of length N that is not valid UTF-8, the
console payload line shows the placeholder `[Binary data: N bytes]`, while
the log file's payload field is Python's `str()` of the raw payload bytes,
which never equals the placeholder. -/
theorem c2_console_placeholder_log_raw (ts : Timestamp) (msg : MQTTMessage)
    (h : utf8Decode msg.payload = none) :
    (on_message ts msg)[3]? =
      some ("Payload: [Binary data: " ++ toString msg.payload.length ++ " bytes]") ∧
    log_to_file ts msg =
      "[" ++ formatTimestamp ts ++ "] Topic: " ++ msg.topic
        ++ ", QoS: " ++ toString msg.qos
        ++ ", Retained: " ++ pyBool msg.retain
        ++ ", Payload: " ++ pyBytesStr msg.payload ++ "\n" ∧
    pyBytesStr msg.payload ≠
      "[Binary data: " ++ toString msg.payload.length ++ " bytes]" := by
  refine ⟨?_, rfl, logged_ne_placeholder _⟩
  simp [on_message, decodePayload, h, ← String.append_assoc]

/-- C2, witness for the amended theorem at the payload `[255]`. -/
theorem c2_console_placeholder_log_raw_witness :
    utf8Decode [255] = none ∧
    ((on_message ⟨2026, 1, 2, 3, 4, 5⟩ ⟨"t", [255], 0, false⟩)[3]? =
        some ("Payload: [Binary data: " ++ toString ([255] : List Nat).length ++ " bytes]") ∧
      log_to_file ⟨2026, 1, 2, 3, 4, 5⟩ ⟨"t", [255], 0, false⟩ =
        "[" ++ formatTimestamp ⟨2026, 1, 2, 3, 4, 5⟩ ++ "] Topic: " ++ "t"
          ++ ", QoS: " ++ toString 0
          ++ ", Retained: " ++ pyBool false
          ++ ", Payload: " ++ pyBytesStr [255] ++ "\n" ∧
      pyBytesStr [255] ≠
        "[Binary data: " ++ toString ([255] : List Nat).length ++ " bytes]") :=
  ⟨by decide, c2_console_placeholder_log_raw ⟨2026, 1, 2, 3, 4, 5⟩
    ⟨"t", [255], 0, false⟩ (by decide)⟩

/-- C3: for every received message, the combined callback produces exactly
one console block of five lines (timestamp, topic, QoS/retained, payload,
separator) and appends exactly one newline-terminated entry to the log
file. -/
theorem c3_one_block_one_line (tsC tsL : Timestamp) (msg : MQTTMessage)
    (f : FileState) :
    ((on_message_with_log tsC tsL msg f).1).length = 5 ∧
    (on_message_with_log tsC tsL msg f).2.content
      = f.content ++ f.buffer ++ [log_to_file tsL msg] ∧
    ∃ body, log_to_file tsL msg = body ++ "\n" := by
  refine ⟨rfl, ?_,
    ⟨"[" ++ formatTimestamp tsL ++ "] Topic: " ++ msg.topic
      ++ ", QoS: " ++ toString msg.qos
      ++ ", Retained: " ++ pyBool msg.retain
      ++ ", Payload: " ++ pyBytesStr msg.payload, rfl⟩⟩
  simp [on_message_with_log, log_to_file_effect, fileFlush, fileWrite]

/-- C4: each logged line matches the spec's pattern: a bracketed
`YYYY-MM-DD HH:MM:SS` timestamp, then the topic, a QoS of 0, 1 or 2, the
retained flag rendered as a boolean, and the raw payload. -/
theorem c4_log_line_matches_pattern (ts : Timestamp) (msg : MQTTMessage)
    (hq : msg.qos < 3) :
    ∃ tsStr qstr rstr,
      log_to_file ts msg =
        "[" ++ tsStr ++ "] Topic: " ++ msg.topic ++ ", QoS: " ++ qstr
          ++ ", Retained: " ++ rstr ++ ", Payload: " ++ pyBytesStr msg.payload
          ++ "\n" ∧
      timestampFormatOk tsStr ∧
      (qstr = "0" ∨ qstr = "1" ∨ qstr = "2") ∧
      (rstr = "True" ∨ rstr = "False") := by
  refine ⟨formatTimestamp ts, toString msg.qos, pyBool msg.retain, rfl, ?_, ?_, ?_⟩
  · exact ⟨pad4 ts.year, pad2 ts.month, pad2 ts.day, pad2 ts.hour,
      pad2 ts.minute, pad2 ts.second, rfl, rfl, rfl, rfl, rfl, rfl, rfl,
      pad4_digits _, pad2_digits _, pad2_digits _, pad2_digits _,
      pad2_digits _, pad2_digits _⟩
  · have h : msg.qos = 0 ∨ msg.qos = 1 ∨ msg.qos = 2 := by omega
    rcases h with h | h | h
    · exact Or.inl (by rw [h]; decide)
    · exact Or.inr (Or.inl (by rw [h]; decide))
    · exact Or.inr (Or.inr (by rw [h]; decide))
  · cases hb : msg.retain
    · exact Or.inr (by simp [pyBool, hb])
    · exact Or.inl (by simp [pyBool, hb])

/-- C4, witness at a concrete timestamp and message. -/
theorem c4_log_line_matches_pattern_witness :
    (1 : Nat) < 3 ∧
    (∃ tsStr qstr rstr,
      log_to_file ⟨2026, 10, 12, 3, 4, 5⟩ ⟨"a/b", [255], 1, true⟩ =
        "[" ++ tsStr ++ "] Topic: " ++ "a/b" ++ ", QoS: " ++ qstr
          ++ ", Retained: " ++ rstr ++ ", Payload: " ++ pyBytesStr [255]
          ++ "\n" ∧
      timestampFormatOk tsStr ∧
      (qstr = "0" ∨ qstr = "1" ∨ qstr = "2") ∧
      (rstr = "True" ∨ rstr = "False")) :=
  ⟨by decide, c4_log_line_matches_pattern ⟨2026, 10, 12, 3, 4, 5⟩
    ⟨"a/b", [255], 1, true⟩ (by decide)⟩

/-- C5: the program's log file is opened in append mode, and a run starting
from prior on-disk content `disk` leaves the file holding `disk` followed by
exactly the lines written during the run — both before and after the final
close — so prior content is never removed or overwritten. -/
theorem c5_append_mode_preserves_content (disk : List String)
    (evs : List (Timestamp × MQTTMessage)) :
    mainOpenMode = Mode.append ∧
    (runLog disk evs).content
      = disk ++ evs.map (fun e => log_to_file e.1 e.2) ∧
    (fileClose (runLog disk evs)).content
      = disk ++ evs.map (fun e => log_to_file e.1 e.2) := by
  have h := foldl_log evs (openFile mainOpenMode disk) rfl
  refine ⟨rfl, h.1, ?_⟩
  simp only [fileClose]
  rw [show (runLog disk evs).buffer
      = (evs.foldl (fun f e => log_to_file_effect e.1 e.2 f)
          (openFile mainOpenMode disk)).buffer from rfl, h.2]
  simpa using h.1

/-- C6: the process exit code is 0 on a clean Ctrl-C shutdown, 1 when the
dependency install fails and 1 when an unhandled exception reaches `main`'s
handler; these paths produce no other exit code. -/
theorem c6_exit_codes :
    (mainHandler LoopOutcome.keyboardInterrupt).2 = 0 ∧
    (∀ m, (mainHandler (LoopOutcome.exn m)).2 = 1) ∧
    (install_paho_mqtt false false).2 = some 1 ∧
    (∀ inst ok, (install_paho_mqtt inst ok).2 = none
        ∨ (install_paho_mqtt inst ok).2 = some 1) ∧
    (∀ o, (mainHandler o).2 = 0 ∨ (mainHandler o).2 = 1) := by
  refine ⟨rfl, fun m => rfl, rfl, ?_, ?_⟩
  · intro inst ok
    cases inst <;> cases ok <;> simp [install_paho_mqtt]
  · intro o
    cases o <;> simp [mainHandler]

/-- C7: on the interrupt signal the program prints a notice, disconnects the
client, closes the log file exactly once, prints a final notice and exits
with code 0; the trace contains no log-file write after the close. -/
theorem c7_interrupt_graceful_shutdown :
    mainHandler LoopOutcome.keyboardInterrupt =
      ([ Action.print "\nDisconnecting...",
         Action.disconnect,
         Action.closeLog,
         Action.print "Stopped" ], 0) ∧
    (mainHandler LoopOutcome.keyboardInterrupt).1.count Action.closeLog = 1 ∧
    Action.disconnect ∈ (mainHandler LoopOutcome.keyboardInterrupt).1 ∧
    noWriteAfterClose (mainHandler LoopOutcome.keyboardInterrupt).1 = true := by
  refine ⟨rfl, by decide, by decide, by decide⟩

/-- C8: for every non-zero connect return code, `on_connect` prints only the
failure message carrying that code: it does not subscribe, does not connect
again, and performs no other action. -/
theorem c8_connect_failure_no_retry (rc : Nat) (h : rc ≠ 0) :
    on_connect rc
      = [Action.print ("✗ Failed to connect, return code: " ++ toString rc)] ∧
    (∀ t, Action.subscribe t ∉ on_connect rc) ∧
    (∀ host port, Action.connect host port ∉ on_connect rc) := by
  have he : on_connect rc
      = [Action.print ("✗ Failed to connect, return code: " ++ toString rc)] := by
    simp [on_connect, h]
  refine ⟨he, ?_, ?_⟩
  · intro t hmem
    rw [he] at hmem
    simp at hmem
  · intro host port hmem
    rw [he] at hmem
    simp at hmem

/-- C8, witness at return code 5. -/
theorem c8_connect_failure_no_retry_witness :
    (5 : Nat) ≠ 0 ∧
    (on_connect 5
        = [Action.print ("✗ Failed to connect, return code: " ++ toString 5)] ∧
      (∀ t, Action.subscribe t ∉ on_connect 5) ∧
      (∀ host port, Action.connect host port ∉ on_connect 5)) :=
  ⟨by decide, c8_connect_failure_no_retry 5 (by decide)⟩

/-- C9: each call of the file logger writes then flushes, so after every
logged message the in-memory buffer is empty and the entry has reached the
on-disk content. -/
theorem c9_flush_after_every_log (ts : Timestamp) (msg : MQTTMessage)
    (f : FileState) :
    (log_to_file_effect ts msg f).buffer = [] ∧
    (log_to_file_effect ts msg f).content
      = f.content ++ f.buffer ++ [log_to_file ts msg] := by
  refine ⟨rfl, ?_⟩
  simp [log_to_file_effect, fileFlush, fileWrite]

/-- C10: on a runtime exception other than the interrupt, `main` prints the
error, closes the log file and exits with code 1, and never calls
disconnect on that path. -/
theorem c10_exception_path_no_disconnect (m : String) :
    mainHandler (LoopOutcome.exn m)
      = ([Action.print ("Error: " ++ m), Action.closeLog], 1) ∧
    Action.disconnect ∉ (mainHandler (LoopOutcome.exn m)).1 ∧
    noWriteAfterClose (mainHandler (LoopOutcome.exn m)).1 = true := by
  refine ⟨rfl, ?_, rfl⟩
  simp [mainHandler]

end MqttLogger
